import Mathlib

/-!
Verification of the CARLA→KITTI bounding-box pipeline (`bounding_box.py`).

The geometry is embedded over exact rationals (`ℚ`): the Python source works
in floating point, but every property claimed of it is arithmetic, so the
exact-field model is the faithful mathematical reading.  Angles, which the
source keeps in radians (real multiples of π), are represented by their
exact coefficient of π, a rational; a bridge to `ℝ` is proved where a claim
speaks about the real value (see `pymod` and `fract_coeff_mul_pi`).

Helper functions imported by `bounding_box.py` from `camera_utils` and from
`examples.client_bounding_boxes` are repository code that is not available
here; those definitions are modelled from the spec and say so in their doc
comments.  Everything else is translated directly from `bounding_box.py`.
In-place mutation of the image (diagnostic drawing) and of the depth buffer
is modelled by threading both values through and returning their final
state.
-/

/-- A 3-vector of rationals (CARLA locations, extents, camera-space points). -/
structure Vec3 where
  x : ℚ
  y : ℚ
  z : ℚ
deriving DecidableEq, Repr

/-- A 3×3 matrix given by its rows (the camera calibration matrix). -/
structure Mat3 where
  r0 : Vec3
  r1 : Vec3
  r2 : Vec3
deriving DecidableEq, Repr

/-- Dot product of two 3-vectors. -/
def dot3 (a b : Vec3) : ℚ :=
  a.x * b.x + a.y * b.y + a.z * b.z

/-- CARLA rotation; only `yaw` (in degrees) is read by `bounding_box.py`. -/
structure Rotation where
  yaw : ℚ
deriving DecidableEq, Repr

/-- CARLA `Transform`: a location and a rotation. -/
structure CarlaTransform where
  location : Vec3
  rotation : Rotation
deriving DecidableEq, Repr

/-- CARLA bounding box: local anchor location plus half-extents. -/
structure CarlaBBox where
  location : Vec3
  extent : Vec3
deriving DecidableEq, Repr

/-- An agent snapshot: raw type tag, world transform, oriented local box. -/
structure Agent where
  type_id : String
  transform : CarlaTransform
  bounding_box : CarlaBBox
deriving DecidableEq, Repr

/-- Does `needle` occur as a contiguous substring of `hay`?  Embeds Python's
`needle in hay` on strings. -/
def substrIn (needle hay : List Char) : Bool :=
  match hay with
  | [] => needle.isEmpty
  | _ :: tl => needle.isPrefixOf hay || substrIn needle tl

/-- A projected point as the source stores it: `(pixel_x, pixel_y, depth)`. -/
abbrev Pt3 := ℚ × ℚ × ℚ

/-- Modelled from the spec: the depth buffer is "a 2D array, one scene depth
value per pixel"; `camera_utils.point_is_occluded` indexes it by
integer-rounded row and column.  Modelled as a total function so that
in-canvas lookups are always defined. -/
def DepthMap := ℤ → ℤ → ℚ

/-- Modelled from the spec: the canvas bounds `[0,width)×[0,height)` that
`camera_utils.point_in_canvas` checks against (module-level window size in
`camera_utils`, passed explicitly here). -/
structure Canvas where
  height : ℚ
  width : ℚ
deriving DecidableEq, Repr

/-- One diagnostic marker drawn on the image (`camera_utils.draw_rect`). -/
structure DrawOp where
  pos : ℚ × ℚ
  size : ℕ
  color : ℕ × ℕ × ℕ
deriving DecidableEq, Repr

/-- Modelled from the spec: the RGB image, as far as this core touches it,
is only a surface for diagnostic markers; it is modelled by the list of
draw calls applied to it. -/
structure Image where
  ops : List DrawOp
deriving DecidableEq, Repr

/-- Modelled from the spec: `camera_utils.draw_rect` paints a marker on the
image; modelled as appending the draw call. -/
def draw_rect (image : Image) (pos : ℚ × ℚ) (size : ℕ) (color : ℕ × ℕ × ℕ) : Image :=
  ⟨image.ops ++ [⟨pos, size, color⟩]⟩

def OCCLUDED_VERTEX_COLOR : ℕ × ℕ × ℕ := (255, 0, 0)

def VISIBLE_VERTEX_COLOR : ℕ × ℕ × ℕ := (0, 255, 0)

def MIN_VISIBLE_VERTICES_FOR_RENDER : ℕ := 4

def MIN_BBOX_AREA_IN_PX : ℚ := 100

/-- Modelled from the spec: `camera_utils.point_in_canvas` — the pixel
`(x, y)` must lie inside `[0,width)×[0,height)`.  The source passes the
position as `(y, x)`, so the first component is checked against the height. -/
def point_in_canvas (canvas : Canvas) (pos : ℚ × ℚ) : Bool :=
  decide (0 ≤ pos.1 ∧ pos.1 < canvas.height ∧ 0 ≤ pos.2 ∧ pos.2 < canvas.width)

/-- Modelled from the spec: `camera_utils.point_is_occluded` — "look up the
depth buffer at the pixel's integer-rounded row/column.  If the stored scene
depth at that pixel is strictly less than the point's own depth …, classify
occluded".  The position arrives as `(y, x)` = (row, column). -/
def point_is_occluded (vertex_pos : ℚ × ℚ) (vertex_depth : ℚ) (depth_map : DepthMap) : Bool :=
  decide (depth_map (round vertex_pos.1) (round vertex_pos.2) < vertex_depth)

/-- `calculate_occlusion_stats` from `bounding_box.py`: classifies each
projected bounding-box vertex and tallies `(num_visible_vertices,
num_vertices_outside_camera)`.  The source's in-place loop with counters is
modelled structurally (counts of the head step are added to the counts of
the tail); the image and the depth map, mutated (the image) or merely read
(the depth map) in place in Python, are threaded and returned. -/
def calculate_occlusion_stats (canvas : Canvas) (image : Image) (bbox_points : List Pt3)
    (depth_map : DepthMap) (max_render_depth : ℚ) (draw_vertices : Bool := true) :
    (ℕ × ℕ) × Image × DepthMap :=
  match bbox_points with
  | [] => ((0, 0), image, depth_map)
  | p :: rest =>
    let x_2d := p.1
    let y_2d := p.2.1
    let point_depth := p.2.2
    if max_render_depth > point_depth ∧ point_depth > 0 ∧
        point_in_canvas canvas (y_2d, x_2d) = true then
      let is_occluded := point_is_occluded (y_2d, x_2d) point_depth depth_map
      let vertex_color := if is_occluded then OCCLUDED_VERTEX_COLOR else VISIBLE_VERTEX_COLOR
      let image1 := if draw_vertices then draw_rect image (y_2d, x_2d) 4 vertex_color else image
      let r := calculate_occlusion_stats canvas image1 rest depth_map max_render_depth draw_vertices
      ((if is_occluded then r.1.1 else r.1.1 + 1, r.1.2), r.2)
    else
      let r := calculate_occlusion_stats canvas image rest depth_map max_render_depth draw_vertices
      ((r.1.1, r.1.2 + 1), r.2)

/-- Modelled from the spec: `ClientSideBoundingBoxes._create_bb_points` —
"compute the 8 signed corner combinations of (±extent.x, ±extent.y,
±extent.z) offset by the box's local anchor". -/
def create_bb_points (agent : Agent) : List Vec3 :=
  let e := agent.bounding_box.extent
  let a := agent.bounding_box.location
  [⟨a.x + e.x, a.y + e.y, a.z + e.z⟩,
   ⟨a.x + e.x, a.y + e.y, a.z - e.z⟩,
   ⟨a.x + e.x, a.y - e.y, a.z + e.z⟩,
   ⟨a.x + e.x, a.y - e.y, a.z - e.z⟩,
   ⟨a.x - e.x, a.y + e.y, a.z + e.z⟩,
   ⟨a.x - e.x, a.y + e.y, a.z - e.z⟩,
   ⟨a.x - e.x, a.y - e.y, a.z + e.z⟩,
   ⟨a.x - e.x, a.y - e.y, a.z - e.z⟩]

/-- Modelled from the spec: `ClientSideBoundingBoxes._vehicle_to_sensor` —
"apply the agent's world transform, then the inverse of the camera's world
transform", i.e. a composed rigid motion.  The source builds it from full
3D rotations (trigonometry of pitch/roll/yaw), which have no exact rational
form, so the composed map is carried abstractly as an affine map: a linear
part and a translation. -/
structure RigidMap where
  lin : Mat3
  shift : Vec3

/-- Apply the composed vehicle→sensor map to one point. -/
def RigidMap.apply (m : RigidMap) (v : Vec3) : Vec3 :=
  ⟨dot3 m.lin.r0 v + m.shift.x, dot3 m.lin.r1 v + m.shift.y, dot3 m.lin.r2 v + m.shift.z⟩

/-- Statement of the spec's projection rule (§4.2), used to characterise the
batched pipeline: "pixel_x = (row0·point)/depth, pixel_y =
(row1·point)/depth, depth unchanged", where the depth slot of the product
is `row2·point`. -/
def projectPoint (K : Mat3) (q : Vec3) : Pt3 :=
  (dot3 K.r0 q / dot3 K.r2 q, dot3 K.r1 q / dot3 K.r2 q, dot3 K.r2 q)

/-- Statement of the spec's axis reordering (§4.2): "image-x ← camera-space
lateral axis, image-y ← negated camera-space vertical axis, depth ←
camera-space forward axis", i.e. (x, y, z) ↦ (y, −z, x). -/
def reorderYMinusZX (p : Vec3) : Vec3 :=
  ⟨p.y, -p.z, p.x⟩

/-- `get_bounding_box_and_refpoint` from `bounding_box.py`: stacks the 8 box
corners with the local origin as 9th reference point, maps all 9 to sensor
space, reorders axes `(x,y,z) → (y,−z,x)`, multiplies by the calibration
matrix, divides the first two rows by the third, and splits off the last
row.  The row-wise numpy matrix arithmetic is modelled as maps over the
9-point list. -/
def get_bounding_box_and_refpoint (agent : Agent) (vehicle_to_sensor : RigidMap)
    (camera_calibration : Mat3) : (List Pt3 × Pt3) × (List Vec3 × Vec3) :=
  let bb_cords_and_refpoint : List Vec3 := create_bb_points agent ++ [⟨0, 0, 0⟩]
  let cords_x_y_z := bb_cords_and_refpoint.map vehicle_to_sensor.apply
  let cords_y_minus_z_x := cords_x_y_z.map (fun p => (⟨p.y, -p.z, p.x⟩ : Vec3))
  let bbox_and_refpoint := cords_y_minus_z_x.map
    (fun q => (dot3 camera_calibration.r0 q, dot3 camera_calibration.r1 q,
               dot3 camera_calibration.r2 q))
  let camera_bbox_refpoint : List Pt3 := bbox_and_refpoint.map
    (fun r => (r.1 / r.2.2, r.2.1 / r.2.2, r.2.2))
  let sensor_bbox_refpoint := cords_x_y_z
  ((camera_bbox_refpoint.dropLast, camera_bbox_refpoint.getLastD (0, 0, 0)),
   (sensor_bbox_refpoint.dropLast, sensor_bbox_refpoint.getLastD ⟨0, 0, 0⟩))

/-- `get_relative_rotation_y` from `bounding_box.py`.  The source returns
`math.radians(rot_agent − rot_vehicle)`, that is the real number
((rot_agent − rot_vehicle)/180)·π.  Angles are represented throughout by
their exact coefficient of π, so this returns (Δyaw)/180. -/
def get_relative_rotation_y (agent : Agent) (player_transform : CarlaTransform) : ℚ :=
  (agent.transform.rotation.yaw - player_transform.rotation.yaw) / 180

/-- `transforms_from_agent` from `bounding_box.py`: substring-classifies the
raw type tag ("pedestrian" → Pedestrian, "vehicle" → Car) and collects the
agent's transforms.  The source's all-`None` 5-tuple for an unclassified
agent is modelled as `none`. -/
def transforms_from_agent (agent : Agent) :
    Option (String × CarlaTransform × CarlaTransform × Vec3 × Vec3) :=
  let obj_type : Option String :=
    if substrIn "pedestrian".data agent.type_id.data then some "Pedestrian"
    else if substrIn "vehicle".data agent.type_id.data then some "Car"
    else none
  match obj_type with
  | none => none
  | some t =>
    some (t, agent.transform, ⟨agent.bounding_box.location, ⟨0⟩⟩,
          agent.bounding_box.extent, agent.transform.location)

/-- Modelled from the spec: `camera_utils.calc_projected_2d_bbox` — "compute
axis-aligned bounds over the 8 corner pixel projections …: xmin=min(x_i),
xmax=max(x_i), ymin=min(y_i), ymax=max(y_i)", returned as
`(xmin, ymin, xmax, ymax)` (the order `calc_bbox2d_area` documents). -/
def calc_projected_2d_bbox (vertices_pos2d : List Pt3) : ℚ × ℚ × ℚ × ℚ :=
  match vertices_pos2d with
  | [] => (0, 0, 0, 0)
  | p :: rest =>
    rest.foldl
      (fun acc q =>
        (min acc.1 q.1, min acc.2.1 q.2.1, max acc.2.2.1 q.1, max acc.2.2.2 q.2.1))
      (p.1, p.2.1, p.1, p.2.1)

/-- `calc_bbox2d_area` from `bounding_box.py`: area of an
`(xmin, ymin, xmax, ymax)` box as `(ymax − ymin) * (xmax − xmin)`. -/
def calc_bbox2d_area (bbox_2d : ℚ × ℚ × ℚ × ℚ) : ℚ :=
  (bbox_2d.2.2.2 - bbox_2d.2.1) * (bbox_2d.2.2.1 - bbox_2d.1)

/-- The fields `create_kitti_datapoint` fills in a `KittiDescriptor`.
`rotation_y` stores the coefficient of π of the heading. -/
structure KittiDescriptor where
  type : String
  bbox : ℚ × ℚ × ℚ × ℚ
  dimensions : Vec3
  location : Vec3
  rotation_y : ℚ
deriving DecidableEq, Repr

/-- Return value of `create_kitti_datapoint`: the unclassified branch
returns the Python pair `(image, None)`, every other branch the triple
`(image, datapoint-or-None, bbox-or-None)`. -/
inductive CKDResult where
  | pair (image : Image) (datapoint : Option KittiDescriptor)
  | triple (image : Image) (datapoint : Option KittiDescriptor) (bbox : Option (List Pt3))
deriving DecidableEq, Repr

/-- Number of components of the returned Python tuple. -/
def CKDResult.arity : CKDResult → ℕ
  | .pair _ _ => 2
  | .triple _ _ _ => 3

/-- The label slot of the returned tuple (`None` ↦ `none`). -/
def CKDResult.datapoint : CKDResult → Option KittiDescriptor
  | .pair _ d => d
  | .triple _ d _ => d

/-- The image slot of the returned tuple. -/
def CKDResult.outImage : CKDResult → Image
  | .pair i _ => i
  | .triple i _ _ => i

/-- `create_kitti_datapoint` from `bounding_box.py`: classify, project,
count visibility, gate on the visibility thresholds and on the projected
area, and assemble the KITTI descriptor.  The source's
`% math.pi` on the heading: with the heading represented as coefficient·π,
`(c·π) mod π = Int.fract c · π`, so the stored coefficient is `Int.fract`
of `get_relative_rotation_y` (see `fract_coeff_mul_pi`). -/
def create_kitti_datapoint (canvas : Canvas) (agent : Agent) (vehicle_to_sensor : RigidMap)
    (cam_calibration : Mat3) (image : Image) (depth_map : DepthMap)
    (player_transform : CarlaTransform) (max_render_depth : ℚ := 70) : CKDResult :=
  match transforms_from_agent agent with
  | none => CKDResult.pair image none
  | some (obj_type, _agent_transform, _bbox_transform, ext, _location) =>
    let bboxes := get_bounding_box_and_refpoint agent vehicle_to_sensor cam_calibration
    let camera_bbox := bboxes.1.1
    let sensor_refpoint := bboxes.2.2
    let occ := calculate_occlusion_stats canvas image camera_bbox depth_map max_render_depth false
    let num_visible_vertices := occ.1.1
    let num_vertices_outside_camera := occ.1.2
    let image1 := occ.2.1
    if num_visible_vertices ≥ MIN_VISIBLE_VERTICES_FOR_RENDER ∧
        MIN_VISIBLE_VERTICES_FOR_RENDER > num_vertices_outside_camera then
      let bbox_2d := calc_projected_2d_bbox camera_bbox
      let area := calc_bbox2d_area bbox_2d
      if area < MIN_BBOX_AREA_IN_PX then
        CKDResult.triple image1 none none
      else
        let rotation_y := Int.fract (get_relative_rotation_y agent player_transform)
        let datapoint : KittiDescriptor :=
          ⟨obj_type, bbox_2d, ext, sensor_refpoint, rotation_y⟩
        CKDResult.triple image1 (some datapoint) (some camera_bbox)
    else
      CKDResult.triple image1 none none

/-- Python's `%` on real operands with a positive modulus:
`x % m = x − m·⌊x/m⌋`, the representative in `[0, m)`. -/
noncomputable def pymod (x m : ℝ) : ℝ :=
  x - m * ⌊x / m⌋

/-! ### Concrete fixtures used by witnesses and counterexamples -/

/-- A 100×100 canvas. -/
def canvas100 : Canvas := ⟨100, 100⟩

/-- A depth buffer storing the uniform scene depth 50. -/
def depth50 : DepthMap := fun _ _ => 50

/-- A depth buffer storing the uniform scene depth 5. -/
def depth5 : DepthMap := fun _ _ => 5

/-- An image with no diagnostic markers on it. -/
def emptyImage : Image := ⟨[]⟩

/-- The identity calibration matrix. -/
def idMat3 : Mat3 := ⟨⟨1, 0, 0⟩, ⟨0, 1, 0⟩, ⟨0, 0, 1⟩⟩

/-- The identity vehicle→sensor map. -/
def idRigid : RigidMap := ⟨idMat3, ⟨0, 0, 0⟩⟩

/-- A reference (ego) pose with yaw 0°. -/
def playerT : CarlaTransform := ⟨⟨0, 0, 0⟩, ⟨0⟩⟩

/-- A reference (ego) pose with yaw 370°. -/
def player370 : CarlaTransform := ⟨⟨0, 0, 0⟩, ⟨370⟩⟩

/-- A vehicle at yaw 10° whose box sits 1 unit in front of the sensor,
centred on pixel (50, 50), extending ±5 px laterally and ±`ez` px
vertically once projected. -/
def mkAgent (tid : String) (ez : ℚ) : Agent :=
  ⟨tid, ⟨⟨0, 0, 0⟩, ⟨10⟩⟩, ⟨⟨1, 50, -50⟩, ⟨0, 5, ez⟩⟩⟩

/-- Vehicle whose projected box is exactly 10×10 px (area 100). -/
def agentA : Agent := mkAgent "vehicle.tesla.model3" 5

/-- Vehicle whose projected box is 10×9.999 px (area 99.99). -/
def agentSmall : Agent := mkAgent "vehicle.audi.tt" 4.9995

/-- Vehicle whose projected box is 10×10.001 px (area 100.01). -/
def agentBig : Agent := mkAgent "vehicle.bmw.isetta" 5.0005

/-- An agent with an unclassifiable type tag. -/
def agentProp : Agent := mkAgent "static.prop.box" 5

/-- Projected corners of `agentA` (duplicated because extent.x = 0). -/
def ptsA : List Pt3 :=
  [(55, 45, 1), (55, 55, 1), (45, 45, 1), (45, 55, 1),
   (55, 45, 1), (55, 55, 1), (45, 45, 1), (45, 55, 1)]

/-- Projected corners of `agentSmall`. -/
def ptsSmall : List Pt3 :=
  [(55, 45.0005, 1), (55, 54.9995, 1), (45, 45.0005, 1), (45, 54.9995, 1),
   (55, 45.0005, 1), (55, 54.9995, 1), (45, 45.0005, 1), (45, 54.9995, 1)]

/-- Projected corners of `agentBig`. -/
def ptsBig : List Pt3 :=
  [(55, 44.9995, 1), (55, 55.0005, 1), (45, 44.9995, 1), (45, 55.0005, 1),
   (55, 44.9995, 1), (55, 55.0005, 1), (45, 44.9995, 1), (45, 55.0005, 1)]

/-! ### Helper lemmas -/

/-- The visibility/outside counts do not depend on the image being drawn on. -/
theorem occ_counts_image_indep (pts : List Pt3) :
    ∀ (canvas : Canvas) (i j : Image) (dm : DepthMap) (mrd : ℚ) (draw : Bool),
      (calculate_occlusion_stats canvas i pts dm mrd draw).1
        = (calculate_occlusion_stats canvas j pts dm mrd draw).1 := by
  induction pts with
  | nil => intros; rfl
  | cons p rest ih =>
    intro canvas i j dm mrd draw
    simp only [calculate_occlusion_stats]
    split
    · simp only []
      rw [ih canvas _ _ dm mrd draw]
    · simp only []
      rw [ih canvas i j dm mrd draw]

/-- The counts are the same with the diagnostic overlay on or off. -/
theorem occ_counts_draw_indep (pts : List Pt3) :
    ∀ (canvas : Canvas) (i : Image) (dm : DepthMap) (mrd : ℚ),
      (calculate_occlusion_stats canvas i pts dm mrd true).1
        = (calculate_occlusion_stats canvas i pts dm mrd false).1 := by
  induction pts with
  | nil => intros; rfl
  | cons p rest ih =>
    intro canvas i dm mrd
    simp only [calculate_occlusion_stats]
    split
    · simp only [Bool.false_eq_true, if_false, if_true]
      rw [occ_counts_image_indep rest canvas _ i dm mrd true, ih canvas i dm mrd]
    · simp only [Bool.false_eq_true, if_false, if_true]
      rw [ih canvas i dm mrd]

/-- The depth buffer comes back out exactly as it went in. -/
theorem occ_depth_map_unchanged (pts : List Pt3) :
    ∀ (canvas : Canvas) (i : Image) (dm : DepthMap) (mrd : ℚ) (draw : Bool),
      (calculate_occlusion_stats canvas i pts dm mrd draw).2.2 = dm := by
  induction pts with
  | nil => intros; rfl
  | cons p rest ih =>
    intro canvas i dm mrd draw
    simp only [calculate_occlusion_stats]
    split
    · simp only []
      rw [ih canvas _ dm mrd draw]
    · simp only []
      rw [ih canvas i dm mrd draw]

/-- With drawing disabled the image also comes back unchanged. -/
theorem occ_nodraw_image_unchanged (pts : List Pt3) :
    ∀ (canvas : Canvas) (i : Image) (dm : DepthMap) (mrd : ℚ),
      (calculate_occlusion_stats canvas i pts dm mrd false).2.1 = i := by
  induction pts with
  | nil => intros; rfl
  | cons p rest ih =>
    intro canvas i dm mrd
    simp only [calculate_occlusion_stats, Bool.false_eq_true, if_false]
    split
    · simp only []
      rw [ih canvas i dm mrd]
    · simp only []
      rw [ih canvas i dm mrd]

/-- Unfolding of `create_kitti_datapoint` once the agent has been
classified: the whole remaining pipeline, written out. -/
theorem create_kitti_datapoint_classified (canvas : Canvas) (agent : Agent) (V : RigidMap)
    (K : Mat3) (image : Image) (dm : DepthMap) (player : CarlaTransform) (mrd : ℚ)
    (t : String) (a1 a2 : CarlaTransform) (ext loc : Vec3)
    (h : transforms_from_agent agent = some (t, a1, a2, ext, loc)) :
    create_kitti_datapoint canvas agent V K image dm player mrd =
      (if (calculate_occlusion_stats canvas image (get_bounding_box_and_refpoint agent V K).1.1
              dm mrd false).1.1 ≥ MIN_VISIBLE_VERTICES_FOR_RENDER ∧
          MIN_VISIBLE_VERTICES_FOR_RENDER >
            (calculate_occlusion_stats canvas image
              (get_bounding_box_and_refpoint agent V K).1.1 dm mrd false).1.2 then
        if calc_bbox2d_area (calc_projected_2d_bbox (get_bounding_box_and_refpoint agent V K).1.1)
            < MIN_BBOX_AREA_IN_PX then
          CKDResult.triple
            (calculate_occlusion_stats canvas image
              (get_bounding_box_and_refpoint agent V K).1.1 dm mrd false).2.1 none none
        else
          CKDResult.triple
            (calculate_occlusion_stats canvas image
              (get_bounding_box_and_refpoint agent V K).1.1 dm mrd false).2.1
            (some ⟨t, calc_projected_2d_bbox (get_bounding_box_and_refpoint agent V K).1.1, ext,
                   (get_bounding_box_and_refpoint agent V K).2.2,
                   Int.fract (get_relative_rotation_y agent player)⟩)
            (some (get_bounding_box_and_refpoint agent V K).1.1)
      else
        CKDResult.triple
          (calculate_occlusion_stats canvas image
            (get_bounding_box_and_refpoint agent V K).1.1 dm mrd false).2.1 none none) := by
  simp only [create_kitti_datapoint, h]

/-- An unclassifiable type tag makes `transforms_from_agent` return `none`. -/
theorem transforms_from_agent_none (agent : Agent)
    (h1 : substrIn "pedestrian".data agent.type_id.data = false)
    (h2 : substrIn "vehicle".data agent.type_id.data = false) :
    transforms_from_agent agent = none := by
  simp only [transforms_from_agent, h1, h2, Bool.false_eq_true, if_false]

/-- Bridge between the coefficient-of-π representation and the real
heading: `Int.fract c · π` is exactly `(c·π) % π` in Python's `%`
semantics, and lies in `[0, π)`. -/
theorem fract_coeff_mul_pi (c : ℚ) :
    ((Int.fract c : ℚ) : ℝ) * Real.pi = pymod ((c : ℝ) * Real.pi) Real.pi ∧
    0 ≤ ((Int.fract c : ℚ) : ℝ) * Real.pi ∧
    ((Int.fract c : ℚ) : ℝ) * Real.pi < Real.pi := by
  have hπ0 : (0 : ℝ) < Real.pi := Real.pi_pos
  refine ⟨?_, ?_, ?_⟩
  · rw [pymod, mul_div_cancel_right₀ _ (ne_of_gt hπ0), Rat.floor_cast, Int.fract]
    push_cast
    ring
  · have h1 : (0 : ℚ) ≤ Int.fract c := Int.fract_nonneg c
    have h2 : ((0 : ℚ) : ℝ) ≤ ((Int.fract c : ℚ) : ℝ) := by exact_mod_cast h1
    exact mul_nonneg (by exact_mod_cast h2) (le_of_lt hπ0)
  · have h1 : Int.fract c < (1 : ℚ) := Int.fract_lt_one c
    have h2 : ((Int.fract c : ℚ) : ℝ) < 1 := by exact_mod_cast h1
    calc ((Int.fract c : ℚ) : ℝ) * Real.pi < 1 * Real.pi :=
        mul_lt_mul_of_pos_right h2 hπ0
      _ = Real.pi := one_mul _

/-- Classification of the three vehicle fixtures and the prop fixture. -/
theorem eval_tfa_A : transforms_from_agent agentA =
    some ("Car", ⟨⟨0, 0, 0⟩, ⟨10⟩⟩, ⟨⟨1, 50, -50⟩, ⟨0⟩⟩, ⟨0, 5, 5⟩, ⟨0, 0, 0⟩) := by
  rfl

theorem eval_tfa_Small : transforms_from_agent agentSmall =
    some ("Car", ⟨⟨0, 0, 0⟩, ⟨10⟩⟩, ⟨⟨1, 50, -50⟩, ⟨0⟩⟩, ⟨0, 5, 4.9995⟩, ⟨0, 0, 0⟩) := by
  rfl

theorem eval_tfa_Big : transforms_from_agent agentBig =
    some ("Car", ⟨⟨0, 0, 0⟩, ⟨10⟩⟩, ⟨⟨1, 50, -50⟩, ⟨0⟩⟩, ⟨0, 5, 5.0005⟩, ⟨0, 0, 0⟩) := by
  rfl

theorem eval_tfa_Prop : transforms_from_agent agentProp = none := by
  rfl

set_option maxHeartbeats 1000000 in
theorem eval_bbox_A : (get_bounding_box_and_refpoint agentA idRigid idMat3).1.1 = ptsA := by
  simp only [get_bounding_box_and_refpoint, create_bb_points, agentA, mkAgent, idRigid, idMat3,
    RigidMap.apply, dot3, List.map_append, List.map_cons, List.map_nil, List.cons_append,
    List.nil_append, List.dropLast_concat, ptsA]
  norm_num

set_option maxHeartbeats 1000000 in
theorem eval_bbox_Small :
    (get_bounding_box_and_refpoint agentSmall idRigid idMat3).1.1 = ptsSmall := by
  simp only [get_bounding_box_and_refpoint, create_bb_points, agentSmall, mkAgent, idRigid,
    idMat3, RigidMap.apply, dot3, List.map_append, List.map_cons, List.map_nil, List.cons_append,
    List.nil_append, List.dropLast_concat, ptsSmall]
  norm_num

set_option maxHeartbeats 1000000 in
theorem eval_bbox_Big :
    (get_bounding_box_and_refpoint agentBig idRigid idMat3).1.1 = ptsBig := by
  simp only [get_bounding_box_and_refpoint, create_bb_points, agentBig, mkAgent, idRigid,
    idMat3, RigidMap.apply, dot3, List.map_append, List.map_cons, List.map_nil, List.cons_append,
    List.nil_append, List.dropLast_concat, ptsBig]
  norm_num

set_option maxHeartbeats 1000000 in
theorem eval_ref_A : (get_bounding_box_and_refpoint agentA idRigid idMat3).2.2 = ⟨0, 0, 0⟩ := by
  simp only [get_bounding_box_and_refpoint, create_bb_points, agentA, mkAgent, idRigid, idMat3,
    RigidMap.apply, dot3, List.map_append, List.map_cons, List.map_nil, List.cons_append,
    List.nil_append, List.getLastD_concat]
  norm_num

set_option maxHeartbeats 1000000 in
theorem eval_ref_Big :
    (get_bounding_box_and_refpoint agentBig idRigid idMat3).2.2 = ⟨0, 0, 0⟩ := by
  simp only [get_bounding_box_and_refpoint, create_bb_points, agentBig, mkAgent, idRigid, idMat3,
    RigidMap.apply, dot3, List.map_append, List.map_cons, List.map_nil, List.cons_append,
    List.nil_append, List.getLastD_concat]
  norm_num

set_option maxHeartbeats 1000000 in
theorem eval_ref_Small :
    (get_bounding_box_and_refpoint agentSmall idRigid idMat3).2.2 = ⟨0, 0, 0⟩ := by
  simp only [get_bounding_box_and_refpoint, create_bb_points, agentSmall, mkAgent, idRigid,
    idMat3, RigidMap.apply, dot3, List.map_append, List.map_cons, List.map_nil, List.cons_append,
    List.nil_append, List.getLastD_concat]
  norm_num

set_option maxHeartbeats 1000000 in
theorem eval_occ_A : calculate_occlusion_stats canvas100 emptyImage ptsA depth50 70 false
    = ((8, 0), emptyImage, depth50) := by
  simp only [calculate_occlusion_stats, ptsA, point_in_canvas, point_is_occluded, canvas100,
    depth50]
  norm_num

set_option maxHeartbeats 1000000 in
theorem eval_occ_Small : calculate_occlusion_stats canvas100 emptyImage ptsSmall depth50 70 false
    = ((8, 0), emptyImage, depth50) := by
  simp only [calculate_occlusion_stats, ptsSmall, point_in_canvas, point_is_occluded, canvas100,
    depth50]
  norm_num

set_option maxHeartbeats 1000000 in
theorem eval_occ_Big : calculate_occlusion_stats canvas100 emptyImage ptsBig depth50 70 false
    = ((8, 0), emptyImage, depth50) := by
  simp only [calculate_occlusion_stats, ptsBig, point_in_canvas, point_is_occluded, canvas100,
    depth50]
  norm_num

theorem eval_proj_A : calc_projected_2d_bbox ptsA = (45, 45, 55, 55) := by
  simp only [calc_projected_2d_bbox, ptsA, List.foldl]
  norm_num

theorem eval_proj_Small : calc_projected_2d_bbox ptsSmall = (45, 45.0005, 55, 54.9995) := by
  simp only [calc_projected_2d_bbox, ptsSmall, List.foldl]
  norm_num

theorem eval_proj_Big : calc_projected_2d_bbox ptsBig = (45, 44.9995, 55, 55.0005) := by
  simp only [calc_projected_2d_bbox, ptsBig, List.foldl]
  norm_num

theorem eval_area_A : calc_bbox2d_area (45, 45, 55, 55) = 100 := by
  norm_num [calc_bbox2d_area]

theorem eval_area_Small : calc_bbox2d_area (45, 45.0005, 55, 54.9995) = 99.99 := by
  norm_num [calc_bbox2d_area]

theorem eval_area_Big : calc_bbox2d_area (45, 44.9995, 55, 55.0005) = 100.01 := by
  norm_num [calc_bbox2d_area]

theorem eval_rot_A : Int.fract (get_relative_rotation_y agentA playerT) = 1 / 18 := by
  norm_num [get_relative_rotation_y, agentA, mkAgent, playerT, Int.fract, Int.floor_eq_iff]

set_option maxHeartbeats 1000000 in
theorem eval_create_A :
    create_kitti_datapoint canvas100 agentA idRigid idMat3 emptyImage depth50 playerT 70
      = CKDResult.triple emptyImage
          (some ⟨"Car", (45, 45, 55, 55), ⟨0, 5, 5⟩, ⟨0, 0, 0⟩, 1 / 18⟩) (some ptsA) := by
  simp only [create_kitti_datapoint, eval_tfa_A, eval_bbox_A, eval_ref_A, eval_occ_A,
    eval_proj_A, eval_rot_A, MIN_VISIBLE_VERTICES_FOR_RENDER, MIN_BBOX_AREA_IN_PX,
    calc_bbox2d_area]
  norm_num

set_option maxHeartbeats 1000000 in
theorem eval_create_Small :
    create_kitti_datapoint canvas100 agentSmall idRigid idMat3 emptyImage depth50 playerT 70
      = CKDResult.triple emptyImage none none := by
  simp only [create_kitti_datapoint, eval_tfa_Small, eval_bbox_Small, eval_ref_Small,
    eval_occ_Small, eval_proj_Small, MIN_VISIBLE_VERTICES_FOR_RENDER, MIN_BBOX_AREA_IN_PX,
    calc_bbox2d_area]
  norm_num

set_option maxHeartbeats 1000000 in
theorem eval_create_Big :
    create_kitti_datapoint canvas100 agentBig idRigid idMat3 emptyImage depth50 playerT 70
      = CKDResult.triple emptyImage
          (some ⟨"Car", (45, 44.9995, 55, 55.0005), ⟨0, 5, 5.0005⟩, ⟨0, 0, 0⟩,
                 Int.fract (get_relative_rotation_y agentBig playerT)⟩)
          (some ptsBig) := by
  simp only [create_kitti_datapoint, eval_tfa_Big, eval_bbox_Big, eval_ref_Big, eval_occ_Big,
    eval_proj_Big, MIN_VISIBLE_VERTICES_FOR_RENDER, MIN_BBOX_AREA_IN_PX, calc_bbox2d_area]
  norm_num

/-! ### Claim theorems -/

/-- C8: an agent whose raw type tag contains neither "pedestrian" nor
"vehicle" as a substring yields no label immediately: the result is the
pair `(image, None)` for every camera map, calibration, depth buffer,
reference pose, canvas and render depth — i.e. independently of all
geometry inputs, so no geometry stage can influence the outcome. -/
theorem C8_unclassified_short_circuit (agent : Agent)
    (h1 : substrIn "pedestrian".data agent.type_id.data = false)
    (h2 : substrIn "vehicle".data agent.type_id.data = false) :
    ∀ (canvas : Canvas) (V : RigidMap) (K : Mat3) (image : Image) (dm : DepthMap)
      (player : CarlaTransform) (mrd : ℚ),
      create_kitti_datapoint canvas agent V K image dm player mrd
        = CKDResult.pair image none := by
  intro canvas V K image dm player mrd
  simp only [create_kitti_datapoint, transforms_from_agent_none agent h1 h2]

/-- C8 witness: the fixture "static.prop.box" agent at concrete inputs. -/
theorem C8_unclassified_short_circuit_witness :
    create_kitti_datapoint canvas100 agentProp idRigid idMat3 emptyImage depth50 playerT 70
      = CKDResult.pair emptyImage none :=
  C8_unclassified_short_circuit agentProp (by decide) (by decide)
    canvas100 idRigid idMat3 emptyImage depth50 playerT 70

/-- C3: the unclassified branch of `create_kitti_datapoint` returns a
2-tuple `(image, None)`, while every branch taken for a classified agent —
visibility rejection, area rejection, or acceptance — returns a 3-tuple. -/
theorem C3_return_arity (canvas : Canvas) (agent : Agent) (V : RigidMap) (K : Mat3)
    (image : Image) (dm : DepthMap) (player : CarlaTransform) (mrd : ℚ) :
    (transforms_from_agent agent = none →
      (create_kitti_datapoint canvas agent V K image dm player mrd).arity = 2) ∧
    (transforms_from_agent agent ≠ none →
      (create_kitti_datapoint canvas agent V K image dm player mrd).arity = 3) := by
  constructor
  · intro h
    simp only [create_kitti_datapoint, h, CKDResult.arity]
  · intro h
    obtain ⟨⟨t, a1, a2, ext, loc⟩, hs⟩ := Option.ne_none_iff_exists'.mp h
    rw [create_kitti_datapoint_classified canvas agent V K image dm player mrd t a1 a2 ext loc hs]
    split
    · split
      · rfl
      · rfl
    · rfl

/-- C3 witness: arity 2 at the unclassified fixture, arity 3 at an accepted
vehicle fixture. -/
theorem C3_return_arity_witness :
    (create_kitti_datapoint canvas100 agentProp idRigid idMat3 emptyImage depth50 playerT
      70).arity = 2 ∧
    (create_kitti_datapoint canvas100 agentA idRigid idMat3 emptyImage depth50 playerT
      70).arity = 3 :=
  ⟨(C3_return_arity canvas100 agentProp idRigid idMat3 emptyImage depth50 playerT 70).1
      eval_tfa_Prop,
   (C3_return_arity canvas100 agentA idRigid idMat3 emptyImage depth50 playerT 70).2
      (by rw [eval_tfa_A]; exact Option.some_ne_none _)⟩

/-- C9: `calculate_occlusion_stats` returns the depth buffer untouched, its
counts are identical with the diagnostic overlay enabled or disabled, and
`create_kitti_datapoint` (which calls it with drawing disabled) returns its
input image unchanged in every branch. -/
theorem C9_no_mutation_draw_independent :
    (∀ (canvas : Canvas) (image : Image) (pts : List Pt3) (dm : DepthMap) (mrd : ℚ),
      (calculate_occlusion_stats canvas image pts dm mrd true).1
        = (calculate_occlusion_stats canvas image pts dm mrd false).1) ∧
    (∀ (canvas : Canvas) (image : Image) (pts : List Pt3) (dm : DepthMap) (mrd : ℚ)
      (draw : Bool),
      (calculate_occlusion_stats canvas image pts dm mrd draw).2.2 = dm) ∧
    (∀ (canvas : Canvas) (agent : Agent) (V : RigidMap) (K : Mat3) (image : Image)
      (dm : DepthMap) (player : CarlaTransform) (mrd : ℚ),
      (create_kitti_datapoint canvas agent V K image dm player mrd).outImage = image) := by
  refine ⟨?_, ?_, ?_⟩
  · intro canvas image pts dm mrd
    exact occ_counts_draw_indep pts canvas image dm mrd
  · intro canvas image pts dm mrd draw
    exact occ_depth_map_unchanged pts canvas image dm mrd draw
  · intro canvas agent V K image dm player mrd
    rcases h : transforms_from_agent agent with _ | ⟨t, a1, a2, ext, loc⟩
    · simp only [create_kitti_datapoint, h, CKDResult.outImage]
    · rw [create_kitti_datapoint_classified canvas agent V K image dm player mrd t a1 a2 ext
        loc h]
      split
      · split
        · simp only [CKDResult.outImage,
            occ_nodraw_image_unchanged (get_bounding_box_and_refpoint agent V K).1.1 canvas
              image dm mrd]
        · simp only [CKDResult.outImage,
            occ_nodraw_image_unchanged (get_bounding_box_and_refpoint agent V K).1.1 canvas
              image dm mrd]
      · simp only [CKDResult.outImage,
          occ_nodraw_image_unchanged (get_bounding_box_and_refpoint agent V K).1.1 canvas
            image dm mrd]

/-- C10: the evaluation is a pure function of its snapshot inputs — two
invocations with the same snapshot agree on the whole returned tuple and in
particular on every label field; there is no hidden state to diverge on. -/
theorem C10_deterministic (canvas : Canvas) (agent : Agent) (V : RigidMap) (K : Mat3)
    (image : Image) (dm : DepthMap) (player : CarlaTransform) (mrd : ℚ) :
    create_kitti_datapoint canvas agent V K image dm player mrd
        = create_kitti_datapoint canvas agent V K image dm player mrd ∧
    (create_kitti_datapoint canvas agent V K image dm player mrd).datapoint
        = (create_kitti_datapoint canvas agent V K image dm player mrd).datapoint :=
  ⟨rfl, rfl⟩

/-- C2: a label is emitted only if `num_visible ≥ 4` and `num_outside < 4`;
if either condition fails the result carries no label; and both thresholds
are the one constant `MIN_VISIBLE_VERTICES_FOR_RENDER = 4`, so raising it
tightens both sides at once. -/
theorem C2_visibility_gate :
    (∀ (canvas : Canvas) (agent : Agent) (V : RigidMap) (K : Mat3) (image : Image)
      (dm : DepthMap) (player : CarlaTransform) (mrd : ℚ),
      ((create_kitti_datapoint canvas agent V K image dm player mrd).datapoint).isSome
          = true →
        MIN_VISIBLE_VERTICES_FOR_RENDER ≤
          (calculate_occlusion_stats canvas image
            (get_bounding_box_and_refpoint agent V K).1.1 dm mrd false).1.1 ∧
        (calculate_occlusion_stats canvas image
            (get_bounding_box_and_refpoint agent V K).1.1 dm mrd false).1.2
          < MIN_VISIBLE_VERTICES_FOR_RENDER) ∧
    (∀ (canvas : Canvas) (agent : Agent) (V : RigidMap) (K : Mat3) (image : Image)
      (dm : DepthMap) (player : CarlaTransform) (mrd : ℚ),
      ¬(MIN_VISIBLE_VERTICES_FOR_RENDER ≤
          (calculate_occlusion_stats canvas image
            (get_bounding_box_and_refpoint agent V K).1.1 dm mrd false).1.1 ∧
        (calculate_occlusion_stats canvas image
            (get_bounding_box_and_refpoint agent V K).1.1 dm mrd false).1.2
          < MIN_VISIBLE_VERTICES_FOR_RENDER) →
      (create_kitti_datapoint canvas agent V K image dm player mrd).datapoint = none) ∧
    MIN_VISIBLE_VERTICES_FOR_RENDER = 4 := by
  refine ⟨?_, ?_, rfl⟩
  · intro canvas agent V K image dm player mrd h
    rcases htfa : transforms_from_agent agent with _ | ⟨t, a1, a2, ext, loc⟩
    · simp only [create_kitti_datapoint, htfa, CKDResult.datapoint, Option.isSome_none,
        Bool.false_eq_true] at h
    · rw [create_kitti_datapoint_classified canvas agent V K image dm player mrd t a1 a2 ext
        loc htfa] at h
      by_cases hg : MIN_VISIBLE_VERTICES_FOR_RENDER ≤
          (calculate_occlusion_stats canvas image
            (get_bounding_box_and_refpoint agent V K).1.1 dm mrd false).1.1 ∧
          (calculate_occlusion_stats canvas image
            (get_bounding_box_and_refpoint agent V K).1.1 dm mrd false).1.2
            < MIN_VISIBLE_VERTICES_FOR_RENDER
      · exact hg
      · rw [if_neg (fun hc => hg ⟨hc.1, hc.2⟩)] at h
        simp only [CKDResult.datapoint, Option.isSome_none, Bool.false_eq_true] at h
  · intro canvas agent V K image dm player mrd hng
    rcases htfa : transforms_from_agent agent with _ | ⟨t, a1, a2, ext, loc⟩
    · simp only [create_kitti_datapoint, htfa, CKDResult.datapoint]
    · rw [create_kitti_datapoint_classified canvas agent V K image dm player mrd t a1 a2 ext
        loc htfa, if_neg (fun hc => hng ⟨hc.1, hc.2⟩)]
      rfl

/-- C2 witness: the accepted vehicle fixture satisfies both gate conditions. -/
theorem C2_visibility_gate_witness :
    MIN_VISIBLE_VERTICES_FOR_RENDER ≤
      (calculate_occlusion_stats canvas100 emptyImage
        (get_bounding_box_and_refpoint agentA idRigid idMat3).1.1 depth50 70 false).1.1 ∧
    (calculate_occlusion_stats canvas100 emptyImage
        (get_bounding_box_and_refpoint agentA idRigid idMat3).1.1 depth50 70 false).1.2
      < MIN_VISIBLE_VERTICES_FOR_RENDER :=
  C2_visibility_gate.1 canvas100 agentA idRigid idMat3 emptyImage depth50 playerT 70
    (by rw [eval_create_A]; rfl)

/-- C1 counterexample: the claim says a projected box of area exactly
100 px² is rejected with no label; at the vehicle fixture whose projected
box is exactly 10×10 px the area is exactly 100 and a label IS returned. -/
theorem C1_area_exactly_100_counterexample :
    calc_bbox2d_area (calc_projected_2d_bbox
        (get_bounding_box_and_refpoint agentA idRigid idMat3).1.1) = 100 ∧
    ((create_kitti_datapoint canvas100 agentA idRigid idMat3 emptyImage depth50 playerT
        70).datapoint).isSome = true := by
  constructor
  · rw [eval_bbox_A, eval_proj_A, eval_area_A]
  · rw [eval_create_A]
    rfl

/-- C1 (amended): the area gate is strict — for every evaluation that
reaches it, area < 100 is rejected with no label and area ≥ 100 (including
exactly 100) is accepted; concretely, area 99.99 is rejected and area
100.01 is accepted. -/
theorem C1_area_gate_strict :
    (∀ (canvas : Canvas) (agent : Agent) (V : RigidMap) (K : Mat3) (image : Image)
      (dm : DepthMap) (player : CarlaTransform) (mrd : ℚ)
      (t : String) (a1 a2 : CarlaTransform) (ext loc : Vec3),
      transforms_from_agent agent = some (t, a1, a2, ext, loc) →
      (MIN_VISIBLE_VERTICES_FOR_RENDER ≤
          (calculate_occlusion_stats canvas image
            (get_bounding_box_and_refpoint agent V K).1.1 dm mrd false).1.1 ∧
        (calculate_occlusion_stats canvas image
            (get_bounding_box_and_refpoint agent V K).1.1 dm mrd false).1.2
          < MIN_VISIBLE_VERTICES_FOR_RENDER) →
      ((calc_bbox2d_area (calc_projected_2d_bbox
            (get_bounding_box_and_refpoint agent V K).1.1) < MIN_BBOX_AREA_IN_PX →
          (create_kitti_datapoint canvas agent V K image dm player mrd).datapoint = none) ∧
       (MIN_BBOX_AREA_IN_PX ≤ calc_bbox2d_area (calc_projected_2d_bbox
            (get_bounding_box_and_refpoint agent V K).1.1) →
          ((create_kitti_datapoint canvas agent V K image dm player mrd).datapoint).isSome
            = true))) ∧
    (calc_bbox2d_area (calc_projected_2d_bbox
        (get_bounding_box_and_refpoint agentSmall idRigid idMat3).1.1) = 99.99 ∧
     (create_kitti_datapoint canvas100 agentSmall idRigid idMat3 emptyImage depth50 playerT
        70).datapoint = none) ∧
    (calc_bbox2d_area (calc_projected_2d_bbox
        (get_bounding_box_and_refpoint agentBig idRigid idMat3).1.1) = 100.01 ∧
     ((create_kitti_datapoint canvas100 agentBig idRigid idMat3 emptyImage depth50 playerT
        70).datapoint).isSome = true) := by
  refine ⟨?_, ⟨?_, ?_⟩, ⟨?_, ?_⟩⟩
  · intro canvas agent V K image dm player mrd t a1 a2 ext loc htfa hgate
    rw [create_kitti_datapoint_classified canvas agent V K image dm player mrd t a1 a2 ext
      loc htfa, if_pos (⟨hgate.1, hgate.2⟩ :
        (calculate_occlusion_stats canvas image
          (get_bounding_box_and_refpoint agent V K).1.1 dm mrd false).1.1
          ≥ MIN_VISIBLE_VERTICES_FOR_RENDER ∧
        MIN_VISIBLE_VERTICES_FOR_RENDER >
          (calculate_occlusion_stats canvas image
            (get_bounding_box_and_refpoint agent V K).1.1 dm mrd false).1.2)]
    constructor
    · intro harea
      rw [if_pos harea]
      rfl
    · intro harea
      rw [if_neg (not_lt.mpr harea)]
      rfl
  · rw [eval_bbox_Small, eval_proj_Small, eval_area_Small]
  · rw [eval_create_Small]
    rfl
  · rw [eval_bbox_Big, eval_proj_Big, eval_area_Big]
  · rw [eval_create_Big]
    rfl

/-- C1 witness: at the 10×10 fixture the amended gate accepts and a label
is emitted. -/
theorem C1_area_gate_strict_witness :
    ((create_kitti_datapoint canvas100 agentA idRigid idMat3 emptyImage depth50 playerT
        70).datapoint).isSome = true := by
  refine (C1_area_gate_strict.1 canvas100 agentA idRigid idMat3 emptyImage depth50 playerT 70
    "Car" ⟨⟨0, 0, 0⟩, ⟨10⟩⟩ ⟨⟨1, 50, -50⟩, ⟨0⟩⟩ ⟨0, 5, 5⟩ ⟨0, 0, 0⟩ eval_tfa_A ?_).2 ?_
  · rw [eval_bbox_A, eval_occ_A]
    norm_num [MIN_VISIBLE_VERTICES_FOR_RENDER]
  · rw [eval_bbox_A, eval_proj_A, eval_area_A]
    norm_num [MIN_BBOX_AREA_IN_PX]

/-- C4: a projected corner with depth ≤ 0, depth ≥ max_render_depth, or a
pixel outside the canvas is classified outside: the outside-count is
incremented, nothing else changes, and — as the singleton conjunct shows
for an arbitrary buffer `dm2` — the depth buffer is never consulted for
that point. -/
theorem C4_outside_classification (canvas : Canvas) (image : Image) (p : Pt3)
    (rest : List Pt3) (dm dm2 : DepthMap) (mrd : ℚ) (draw : Bool)
    (h : p.2.2 ≤ 0 ∨ mrd ≤ p.2.2 ∨ point_in_canvas canvas (p.2.1, p.1) = false) :
    calculate_occlusion_stats canvas image (p :: rest) dm mrd draw
        = (((calculate_occlusion_stats canvas image rest dm mrd draw).1.1,
            (calculate_occlusion_stats canvas image rest dm mrd draw).1.2 + 1),
           (calculate_occlusion_stats canvas image rest dm mrd draw).2) ∧
    (calculate_occlusion_stats canvas image [p] dm2 mrd draw).1 = (0, 1) := by
  have hcond : ¬(mrd > p.2.2 ∧ p.2.2 > 0 ∧ point_in_canvas canvas (p.2.1, p.1) = true) := by
    rintro ⟨hc1, hc2, hc3⟩
    rcases h with h | h | h
    · linarith
    · linarith
    · rw [h] at hc3
      exact Bool.false_ne_true hc3
  constructor
  · simp only [calculate_occlusion_stats]
    rw [if_neg hcond]
  · simp only [calculate_occlusion_stats]
    rw [if_neg hcond]

/-- C4 witness: a point at depth 80 ≥ 70 counts as outside, under any of
two different depth buffers. -/
theorem C4_outside_classification_witness :
    (calculate_occlusion_stats canvas100 emptyImage [((50 : ℚ), (50 : ℚ), (80 : ℚ))]
        depth50 70 false).1 = (0, 1) ∧
    (calculate_occlusion_stats canvas100 emptyImage [((50 : ℚ), (50 : ℚ), (80 : ℚ))]
        depth5 70 false).1 = (0, 1) :=
  ⟨(C4_outside_classification canvas100 emptyImage ((50 : ℚ), (50 : ℚ), (80 : ℚ)) []
      depth50 depth50 70 false (Or.inr (Or.inl (by norm_num)))).2,
   (C4_outside_classification canvas100 emptyImage ((50 : ℚ), (50 : ℚ), (80 : ℚ)) []
      depth50 depth5 70 false (Or.inr (Or.inl (by norm_num)))).2⟩

/-- C5: a corner in front of the camera, within render depth and inside
the canvas is occluded iff the stored scene depth at its rounded pixel is
strictly below its own depth; occluded increments neither count, visible
increments the visible-count. -/
theorem C5_occluded_or_visible (canvas : Canvas) (image : Image) (p : Pt3)
    (rest : List Pt3) (dm : DepthMap) (mrd : ℚ) (draw : Bool)
    (h1 : 0 < p.2.2) (h2 : p.2.2 < mrd)
    (h3 : point_in_canvas canvas (p.2.1, p.1) = true) :
    (dm (round p.2.1) (round p.1) < p.2.2 →
      (calculate_occlusion_stats canvas image (p :: rest) dm mrd draw).1
        = (calculate_occlusion_stats canvas image rest dm mrd draw).1) ∧
    (¬ dm (round p.2.1) (round p.1) < p.2.2 →
      (calculate_occlusion_stats canvas image (p :: rest) dm mrd draw).1
        = ((calculate_occlusion_stats canvas image rest dm mrd draw).1.1 + 1,
           (calculate_occlusion_stats canvas image rest dm mrd draw).1.2)) := by
  have hcond : mrd > p.2.2 ∧ p.2.2 > 0 ∧ point_in_canvas canvas (p.2.1, p.1) = true :=
    ⟨h2, h1, h3⟩
  constructor
  · intro hocc
    have ho : point_is_occluded (p.2.1, p.1) p.2.2 dm = true := by
      simp only [point_is_occluded, decide_eq_true_eq]
      exact hocc
    simp only [calculate_occlusion_stats]
    rw [if_pos hcond, ho]
    simp only [if_true]
    rw [occ_counts_image_indep rest canvas _ image dm mrd draw]
  · intro hocc
    have ho : point_is_occluded (p.2.1, p.1) p.2.2 dm = false := by
      simp only [point_is_occluded, decide_eq_false_iff_not]
      exact hocc
    simp only [calculate_occlusion_stats]
    rw [if_pos hcond, ho]
    simp only [Bool.false_eq_true, if_false]
    rw [occ_counts_image_indep rest canvas _ image dm mrd draw]

/-- C5 witness: with stored scene depth 5, a corner at that pixel with
depth 6 is occluded (neither count moves) and with depth 4 is visible
(visible-count increments). -/
theorem C5_occluded_or_visible_witness :
    (calculate_occlusion_stats canvas100 emptyImage [((50 : ℚ), (50 : ℚ), (6 : ℚ))]
        depth5 70 true).1 = (0, 0) ∧
    (calculate_occlusion_stats canvas100 emptyImage [((50 : ℚ), (50 : ℚ), (4 : ℚ))]
        depth5 70 true).1 = (1, 0) := by
  constructor
  · rw [(C5_occluded_or_visible canvas100 emptyImage ((50 : ℚ), (50 : ℚ), (6 : ℚ)) []
      depth5 70 true (by norm_num) (by norm_num)
      (by norm_num [point_in_canvas, canvas100])).1 (by norm_num [depth5])]
    rfl
  · rw [(C5_occluded_or_visible canvas100 emptyImage ((50 : ℚ), (50 : ℚ), (4 : ℚ)) []
      depth5 70 true (by norm_num) (by norm_num)
      (by norm_num [point_in_canvas, canvas100])).2 (by norm_num [depth5])]
    rfl

/-- C6: `get_bounding_box_and_refpoint` batches the 8 corners with the
local origin as 9th reference point, maps every point through
reorder (x,y,z)→(y,−z,x), calibration and perspective division, and splits
the result into the 8 corner projections and the reference projection;
when row 2 of the calibration is (0,0,1) — the pinhole form — the depth
slot is exactly the camera-forward coordinate, unchanged by the division. -/
theorem C6_batched_projection (agent : Agent) (V : RigidMap) (K : Mat3) :
    (create_bb_points agent).length = 8 ∧
    (get_bounding_box_and_refpoint agent V K).1.1
      = (create_bb_points agent).map
          (fun p => projectPoint K (reorderYMinusZX (V.apply p))) ∧
    (get_bounding_box_and_refpoint agent V K).1.2
      = projectPoint K (reorderYMinusZX (V.apply ⟨0, 0, 0⟩)) ∧
    (get_bounding_box_and_refpoint agent V K).2.1 = (create_bb_points agent).map V.apply ∧
    (get_bounding_box_and_refpoint agent V K).2.2 = V.apply ⟨0, 0, 0⟩ ∧
    (K.r2 = ⟨0, 0, 1⟩ → ∀ p : Vec3, (projectPoint K (reorderYMinusZX p)).2.2 = p.x) := by
  refine ⟨rfl, ?_, ?_, ?_, ?_, ?_⟩
  · simp only [get_bounding_box_and_refpoint, List.map_append, List.map_map, List.map_cons,
      List.map_nil, List.dropLast_concat]
    rfl
  · simp only [get_bounding_box_and_refpoint, List.map_append, List.map_map, List.map_cons,
      List.map_nil, List.getLastD_concat]
    rfl
  · simp only [get_bounding_box_and_refpoint, List.map_append, List.map_cons, List.map_nil,
      List.dropLast_concat]
  · simp only [get_bounding_box_and_refpoint, List.map_append, List.map_cons, List.map_nil,
      List.getLastD_concat]
  · intro hK p
    rw [projectPoint, reorderYMinusZX, hK]
    simp only [dot3]
    ring

/-- C6 witness: the batched pipeline at the vehicle fixture, and the
depth-preservation conjunct at the concrete point (3, 4, 5) under the
identity (pinhole-form) calibration. -/
theorem C6_batched_projection_witness :
    (get_bounding_box_and_refpoint agentA idRigid idMat3).1.1
        = (create_bb_points agentA).map
            (fun p => projectPoint idMat3 (reorderYMinusZX (idRigid.apply p))) ∧
    (projectPoint idMat3 (reorderYMinusZX ⟨3, 4, 5⟩)).2.2 = 3 := by
  have h := C6_batched_projection agentA idRigid idMat3
  exact ⟨h.2.1, h.2.2.2.2.2 rfl ⟨3, 4, 5⟩⟩

/-- C7: the heading stored in every emitted label is
radians(agent_yaw − reference_yaw) reduced modulo π (Python `%` semantics),
always in [0, π); and for agent_yaw = 10°, reference_yaw = 370° the
coefficient is exactly 0. -/
theorem C7_heading_normalized :
    (∀ (canvas : Canvas) (agent : Agent) (V : RigidMap) (K : Mat3) (image : Image)
      (dm : DepthMap) (player : CarlaTransform) (mrd : ℚ) (d : KittiDescriptor),
      (create_kitti_datapoint canvas agent V K image dm player mrd).datapoint = some d →
        ((d.rotation_y : ℝ) * Real.pi
            = pymod (Real.pi / 180
                * ((agent.transform.rotation.yaw : ℝ) - (player.rotation.yaw : ℝ)))
                Real.pi ∧
         0 ≤ (d.rotation_y : ℝ) * Real.pi ∧ (d.rotation_y : ℝ) * Real.pi < Real.pi)) ∧
    Int.fract (get_relative_rotation_y (mkAgent "vehicle.m" 5) player370) = 0 := by
  constructor
  · intro canvas agent V K image dm player mrd d h
    have hd : d.rotation_y = Int.fract (get_relative_rotation_y agent player) := by
      rcases htfa : transforms_from_agent agent with _ | ⟨t, a1, a2, ext, loc⟩
      · simp only [create_kitti_datapoint, htfa, CKDResult.datapoint] at h
        exact absurd h (by simp)
      · rw [create_kitti_datapoint_classified canvas agent V K image dm player mrd t a1 a2
          ext loc htfa] at h
        split at h
        · split at h
          · simp only [CKDResult.datapoint] at h
            exact absurd h (by simp)
          · simp only [CKDResult.datapoint, Option.some.injEq] at h
            rw [← h]
        · simp only [CKDResult.datapoint] at h
          exact absurd h (by simp)
    rw [hd]
    have hb := fract_coeff_mul_pi (get_relative_rotation_y agent player)
    refine ⟨?_, hb.2.1, hb.2.2⟩
    rw [hb.1]
    congr 1
    rw [get_relative_rotation_y]
    push_cast
    ring
  · norm_num [get_relative_rotation_y, mkAgent, player370, Int.fract]

/-- C7 witness: the accepted vehicle fixture's label stores coefficient
1/18, i.e. heading π/18 = radians(10° − 0°) mod π, inside [0, π). -/
theorem C7_heading_normalized_witness :
    (((⟨"Car", (45, 45, 55, 55), ⟨0, 5, 5⟩, ⟨0, 0, 0⟩, 1 / 18⟩ :
          KittiDescriptor).rotation_y : ℝ) * Real.pi
        = pymod (Real.pi / 180
            * ((agentA.transform.rotation.yaw : ℝ) - (playerT.rotation.yaw : ℝ)))
            Real.pi ∧
    0 ≤ ((⟨"Car", (45, 45, 55, 55), ⟨0, 5, 5⟩, ⟨0, 0, 0⟩, 1 / 18⟩ :
          KittiDescriptor).rotation_y : ℝ) * Real.pi ∧
    ((⟨"Car", (45, 45, 55, 55), ⟨0, 5, 5⟩, ⟨0, 0, 0⟩, 1 / 18⟩ :
          KittiDescriptor).rotation_y : ℝ) * Real.pi < Real.pi) :=
  C7_heading_normalized.1 canvas100 agentA idRigid idMat3 emptyImage depth50 playerT 70
    ⟨"Car", (45, 45, 55, 55), ⟨0, 5, 5⟩, ⟨0, 0, 0⟩, 1 / 18⟩
    (by rw [eval_create_A]; rfl)
